/-
  Verification of structural properties of the pytest unit-test template
  repository (single source file: src/shared/tdd/test-templates/pytest-unit.template.py).

  The template document is embedded verbatim as the list of its physical
  lines, `templateLines` (193 lines; the file's last line has no trailing
  newline, so the full text is the lines joined by a single newline).
  Characters that the transcription escapes: a double quote is \", a brace
  is \x7b or \x7d, an apostrophe is \x27.  Every other byte is carried over
  unchanged from the source file.

  The Template Provider component of the spec is modelled as a pure state
  transformer `get_template` over `TemplateState`, whose single field is the
  stored document (the spec gives the component one state with no
  transitions; the code is a static file, so the operation returns the
  rendered text and leaves the state untouched).
-/
import Mathlib

set_option maxRecDepth 8192

namespace TddTemplate

/-- The 193 physical lines of pytest-unit.template.py, transcribed verbatim. -/
def templateLines : List String := [
  "import pytest",
  "from unittest.mock import Mock, patch, MagicMock",
  "from module_name import ClassOrFunctionName",
  "",
  "",
  "class TestClassOrFunctionName:",
  "    \"\"\"Test suite for ClassOrFunctionName functionality.\"\"\"",
  "",
  "    def setup_method(self):",
  "        \"\"\"Set up test fixtures before each test method.\"\"\"",
  "        # Arrange: Initialize test data",
  "        self.test_data = \x7b",
  "            \"id\": 1,",
  "            \"name\": \"Test Entity\",",
  "            \"value\": 100",
  "        \x7d",
  "",
  "    def teardown_method(self):",
  "        \"\"\"Clean up after each test method.\"\"\"",
  "        # Cleanup if needed",
  "        pass",
  "",
  "    def test_should_expected_behavior_when_valid_input(self):",
  "        \"\"\"Test that function returns expected result with valid input.\"\"\"",
  "        # Arrange",
  "        input_data = self.test_data",
  "",
  "        # Act",
  "        result = function_under_test(input_data)",
  "",
  "        # Assert",
  "        assert result is not None",
  "        assert result[\"success\"] is True",
  "        assert result[\"data\"] == input_data",
  "",
  "    def test_should_raise_error_when_invalid_input(self):",
  "        \"\"\"Test that function raises appropriate error with invalid input.\"\"\"",
  "        # Arrange",
  "        invalid_input = None",
  "",
  "        # Act & Assert",
  "        with pytest.raises(ValueError, match=\"Expected error message\"):",
  "            function_under_test(invalid_input)",
  "",
  "    def test_should_handle_edge_case_when_empty_input(self):",
  "        \"\"\"Test that function handles empty input correctly.\"\"\"",
  "        # Arrange",
  "        empty_input = \x7b\x7d",
  "",
  "        # Act",
  "        result = function_under_test(empty_input)",
  "",
  "        # Assert",
  "        assert result == expected_default_value",
  "",
  "    @pytest.mark.parametrize(\"input_value,expected_output\", [",
  "        (10, 20),",
  "        (50, 100),",
  "        (0, 0),",
  "        (-5, -10),",
  "    ])",
  "    def test_should_calculate_correctly_when_given_values(",
  "        self, input_value, expected_output",
  "    ):",
  "        \"\"\"Test calculation with various input values.\"\"\"",
  "        # Act",
  "        result = calculate_function(input_value)",
  "",
  "        # Assert",
  "        assert result == expected_output",
  "",
  "",
  "class TestClassWithDependencies:",
  "    \"\"\"Test suite for class with external dependencies.\"\"\"",
  "",
  "    @pytest.fixture",
  "    def mock_database(self):",
  "        \"\"\"Mock database dependency.\"\"\"",
  "        db = Mock()",
  "        db.query.return_value = [\x7b\"id\": 1, \"name\": \"Test\"\x7d]",
  "        db.execute.return_value = True",
  "        return db",
  "",
  "    @pytest.fixture",
  "    def service_instance(self, mock_database):",
  "        \"\"\"Create service instance with mocked dependencies.\"\"\"",
  "        return ServiceClass(database=mock_database)",
  "",
  "    def test_should_fetch_data_when_id_provided(",
  "        self, service_instance, mock_database",
  "    ):",
  "        \"\"\"Test that service fetches data from database.\"\"\"",
  "        # Arrange",
  "        entity_id = 1",
  "",
  "        # Act",
  "        result = service_instance.get_by_id(entity_id)",
  "",
  "        # Assert",
  "        assert result is not None",
  "        assert result[\"id\"] == entity_id",
  "        mock_database.query.assert_called_once_with(",
  "            \"SELECT * FROM table WHERE id = %s\", (entity_id,)",
  "        )",
  "",
  "    def test_should_create_entity_when_valid_data(",
  "        self, service_instance, mock_database",
  "    ):",
  "        \"\"\"Test that service creates entity successfully.\"\"\"",
  "        # Arrange",
  "        new_entity = \x7b\"name\": \"New Entity\", \"value\": 50\x7d",
  "",
  "        # Act",
  "        result = service_instance.create(new_entity)",
  "",
  "        # Assert",
  "        assert result[\"success\"] is True",
  "        mock_database.execute.assert_called_once()",
  "",
  "",
  "class TestAsyncOperations:",
  "    \"\"\"Test suite for async functions.\"\"\"",
  "",
  "    @pytest.mark.asyncio",
  "    async def test_should_fetch_data_when_api_call_succeeds(self):",
  "        \"\"\"Test async API call with successful response.\"\"\"",
  "        # Arrange",
  "        mock_response = \x7b\"id\": 1, \"data\": \"test\"\x7d",
  "",
  "        with patch(\x27module.api_client\x27) as mock_api:",
  "            mock_api.get.return_value = mock_response",
  "",
  "            # Act",
  "            result = await async_function_under_test(1)",
  "",
  "            # Assert",
  "            assert result == mock_response",
  "            mock_api.get.assert_called_once_with(1)",
  "",
  "    @pytest.mark.asyncio",
  "    async def test_should_handle_error_when_api_call_fails(self):",
  "        \"\"\"Test async function handles API errors.\"\"\"",
  "        # Arrange",
  "        with patch(\x27module.api_client\x27) as mock_api:",
  "            mock_api.get.side_effect = ConnectionError(\"API unavailable\")",
  "",
  "            # Act & Assert",
  "            with pytest.raises(ConnectionError):",
  "                await async_function_under_test(1)",
  "",
  "",
  "class TestDomainEntity:",
  "    \"\"\"Test suite for domain entity business logic.\"\"\"",
  "",
  "    def test_should_create_entity_when_valid_input(self):",
  "        \"\"\"Test entity creation with valid data.\"\"\"",
  "        # Arrange",
  "        title = \"Test Title\"",
  "        content = \"Test Content\"",
  "",
  "        # Act",
  "        entity = DomainEntity.create(title, content)",
  "",
  "        # Assert",
  "        assert entity.id is not None",
  "        assert entity.title == title",
  "        assert entity.content == content",
  "        assert entity.status == \"draft\"",
  "",
  "    def test_should_raise_domain_error_when_invalid_business_rule(self):",
  "        \"\"\"Test that entity enforces business rules.\"\"\"",
  "        # Arrange",
  "        entity = DomainEntity.create(\"Title\", \"Content\")",
  "",
  "        # Act & Assert",
  "        # Business rule: Cannot publish without tags",
  "        with pytest.raises(DomainError, match=\"Cannot publish without tags\"):",
  "            entity.publish()",
  "",
  "    def test_should_apply_business_logic_when_method_called(self):",
  "        \"\"\"Test entity business logic.\"\"\"",
  "        # Arrange",
  "        entity = DomainEntity.create(\"Title\", \"Content\")",
  "        entity.add_tag(\"test\")",
  "",
  "        # Act",
  "        entity.publish()",
  "",
  "        # Assert",
  "        assert entity.status == \"published\"",
  "        assert entity.published_at is not None",
  "        assert len(entity.get_events()) == 1",
  "        assert isinstance(entity.get_events()[0], EntityPublishedEvent)"
]

/-- Join a document (list of physical lines) into its full text.  The source
file does not end with a newline, so the join uses a bare newline separator. -/
def render (doc : List String) : String := String.intercalate "\n" doc

/-- The full text of the template document. -/
def templateText : String := render templateLines

/-- State of the Template Provider: it holds only the stored document. -/
structure TemplateState where
  doc : List String
deriving DecidableEq

/-- The one state the provider is ever in: the stored template document. -/
def initState : TemplateState := ⟨templateLines⟩

/-- The operation `get_template`: it takes no input apart from the provider
state, returns the full stored text verbatim, and returns the state
unchanged.  Totality of the Lean function (its codomain is not Option or
Except) models that no errors are possible. -/
def get_template (s : TemplateState) : String × TemplateState :=
  (render s.doc, s)


/-- A character of a Python identifier token: a letter, a digit or an
underscore. -/
def isIdentChar (c : Char) : Bool := c.isAlpha || c.isDigit || c = '_'

/-- Tokenizer modes while stripping string literals and comments from a
physical line: ordinary code, inside a single-quoted string, inside a
double-quoted string, inside a triple-double-quoted string. -/
inductive StripMode | code | sgl | dbl | tri

/-- Strip comments and string-literal bodies from one physical line of the
template, left to right.  A hash mark outside a string drops the rest of the
line; a string literal is replaced by one space.  Returns `none` when a
string literal is still open at the end of the line, so on this document a
`some` result also certifies that no string spans several physical lines. -/
def stripGo : StripMode → List Char → Option (List Char)
  | .code, [] => some []
  | .code, '\x23' :: _ => some []
  | .code, '\x22' :: '\x22' :: '\x22' :: cs => stripGo .tri cs
  | .code, '\x22' :: cs => stripGo .dbl cs
  | .code, '\x27' :: cs => stripGo .sgl cs
  | .code, c :: cs => (stripGo .code cs).map (c :: ·)
  | .sgl, [] => none
  | .sgl, '\x27' :: cs => (stripGo .code cs).map (' ' :: ·)
  | .sgl, _ :: cs => stripGo .sgl cs
  | .dbl, [] => none
  | .dbl, '\x22' :: cs => (stripGo .code cs).map (' ' :: ·)
  | .dbl, _ :: cs => stripGo .dbl cs
  | .tri, '\x22' :: '\x22' :: '\x22' :: cs => (stripGo .code cs).map (' ' :: ·)
  | .tri, [] => none
  | .tri, _ :: cs => stripGo .tri cs

/-- Strip comments and strings from one physical line given as a string. -/
def stripLine (s : String) : Option (List Char) := stripGo .code s.data

/-- The closing delimiter matching an opening one. -/
def closerFor (c : Char) : Char :=
  if c = '(' then ')' else if c = '[' then ']' else '\x7d'

/-- Track bracket nesting across the characters of stripped code: `stk` is
the stack of closing delimiters still expected.  Returns `none` on a closer
that does not match the innermost open bracket. -/
def scanDelims : List Char → List Char → Option (List Char)
  | stk, [] => some stk
  | stk, c :: cs =>
    if c = '(' || c = '[' || c = '\x7b' then scanDelims (closerFor c :: stk) cs
    else if c = ')' || c = ']' || c = '\x7d' then
      match stk with
      | [] => none
      | top :: rest => if c = top then scanDelims rest cs else none
    else scanDelims stk cs

/-- Number of leading spaces of a (stripped) physical line. -/
def countIndent : List Char → Nat
  | ' ' :: cs => countIndent cs + 1
  | _ => 0

/-- Drop leading spaces. -/
def dropSpaces : List Char → List Char
  | ' ' :: cs => dropSpaces cs
  | cs => cs

/-- Drop leading and trailing spaces. -/
def trimChars (cs : List Char) : List Char :=
  dropSpaces (dropSpaces cs.reverse).reverse

/-- Accumulate physical lines into logical lines the way Python does: a
line whose brackets are still open continues into the next physical line
(the seam contributes one space, as a newline inside brackets is mere
whitespace).  Each finished logical line carries the indentation of its
first physical line.  Returns `none` on an unterminated string, a bracket
mismatch, or brackets still open at the end of the document. -/
def logiAux : Option (Nat × List Char × List Char) → List String → Option (List (Nat × List Char))
  | none, [] => some []
  | some _, [] => none
  | pend, l :: ls =>
    match stripLine l with
    | none => none
    | some cs =>
      match pend with
      | none =>
        match scanDelims [] cs with
        | none => none
        | some [] => (logiAux none ls).map ((countIndent cs, cs) :: ·)
        | some stk => logiAux (some (countIndent cs, cs, stk)) ls
      | some (ind, acc, stk) =>
        match scanDelims stk cs with
        | none => none
        | some [] => (logiAux none ls).map ((ind, acc ++ ' ' :: cs) :: ·)
        | some stk2 => logiAux (some (ind, acc ++ ' ' :: cs, stk2)) ls

/-- The logical statements of a document: its logical lines that are
non-blank after comment and string stripping, each as (indentation, trimmed
code). -/
def stmtsOf (ls : List String) : Option (List (Nat × List Char)) :=
  (logiAux none ls).map fun ll =>
    ll.filterMap fun p =>
      let t := trimChars p.2
      if t.isEmpty then none else some (p.1, t)

/-- The logical statements of the template document (empty if tokenization
failed; the syntax smoke-test theorem proves it does not fail). -/
def stmts : List (Nat × List Char) := (stmtsOf templateLines).getD []

/-- Does a trimmed statement end with a colon, announcing an indented
suite? -/
def endsColon (t : List Char) : Bool :=
  match t.reverse with
  | ':' :: _ => true
  | _ => false

/-- Pop indentation levels greater than `i` off the stack. -/
def popTo (i : Nat) : List Nat → List Nat
  | [] => []
  | j :: rest => if i < j then popTo i rest else j :: rest

/-- The indentation-stack discipline of Python blocks over the statement
list: a statement more indented than the current level is allowed exactly
when the previous statement ended with a colon and opens a block; a dedent
must land exactly on an enclosing indentation level; after a
colon-terminated statement the document may not stay at the same level or
end. -/
def indentOk : List Nat → Bool → List (Nat × List Char) → Bool
  | _, pending, [] => !pending
  | stk, pending, (i, t) :: rest =>
    if stk.headD 0 < i then pending && indentOk (i :: stk) (endsColon t) rest
    else
      let stk2 := popTo i stk
      (stk2.headD 0 == i) && !pending && indentOk stk2 (endsColon t) rest

/-- The tokenizer-level Python syntax smoke test on a document: every
string literal terminates, brackets balance and nest properly (also across
physical lines), and the indentation of statements follows the block
discipline of `indentOk`. -/
def pySmokeOk (ls : List String) : Bool :=
  match stmtsOf ls with
  | none => false
  | some st => indentOk [0] false st

/-- Collect the maximal identifier-character runs of stripped code; the
first argument holds the reversed run being read. -/
def identsGo : List Char → List Char → List (List Char)
  | cur, [] => if cur.isEmpty then [] else [cur.reverse]
  | cur, c :: cs =>
    if isIdentChar c then identsGo (c :: cur) cs
    else if cur.isEmpty then identsGo [] cs
    else cur.reverse :: identsGo [] cs

/-- The identifier tokens of (the stripped code of) a statement. -/
def identsOf (t : List Char) : List (List Char) := identsGo [] t

def kwDef : List Char := "def ".data

def kwAsyncDef : List Char := "async def ".data

def kwClass : List Char := "class ".data

def kwImport : List Char := "import ".data

def kwFrom : List Char := "from ".data

def kwAs : List Char := "as".data

/-- Is the first list a prefix of the second? -/
def startsWithChars : List Char → List Char → Bool
  | [], _ => true
  | _ :: _, [] => false
  | p :: ps, c :: cs => p == c && startsWithChars ps cs

/-- Split a leading identifier off a character list; the first argument
accumulates the reversed identifier. -/
def takeIdentGo : List Char → List Char → List Char × List Char
  | cur, [] => (cur.reverse, [])
  | cur, c :: cs =>
    if isIdentChar c then takeIdentGo (c :: cur) cs else (cur.reverse, c :: cs)

/-- The name bound by a plain assignment statement `name = expr` (and not
by an equality test `name == expr` or an attribute assignment
`obj.attr = expr`), if the statement is one. -/
def assignTarget (t : List Char) : List (List Char) :=
  let p := takeIdentGo [] t
  if p.1.isEmpty then []
  else
    match dropSpaces p.2 with
    | '=' :: '=' :: _ => []
    | '=' :: _ => [p.1]
    | _ => []

/-- Identifiers bound by `as` clauses: every identifier token directly
following an `as` token. -/
def asBound : List (List Char) → List (List Char)
  | a :: b :: rest => if a == kwAs then b :: asBound (b :: rest) else asBound (b :: rest)
  | _ => []

/-- Over-approximation of the names a statement defines or binds: on a
`def`, `async def`, `class`, `import` or `from` statement every identifier
token counts (the defined name, its parameters, imported names and module
names); on any other statement, the target of a plain assignment and any
`as`-bound names. -/
def bindersOf (t : List Char) : List (List Char) :=
  if startsWithChars kwDef t || startsWithChars kwAsyncDef t ||
      startsWithChars kwClass t || startsWithChars kwImport t ||
      startsWithChars kwFrom t then
    identsOf t
  else
    assignTarget t ++ asBound (identsOf t)

/-- Every name the template document defines or binds (over-approximated
by `bindersOf`). -/
def definedIdents : List (List Char) := stmts.flatMap fun p => bindersOf p.2

/-- Does the document reference `name` as an identifier token in code, that
is, outside string literals and comments? -/
def referencesIdent (name : List Char) : Bool :=
  stmts.any fun p => (identsOf p.2).any (· == name)

/-- Is `name` among the names the document defines or binds? -/
def definesIdent (name : List Char) : Bool :=
  definedIdents.any (· == name)

/-- The placeholder symbols of the spec: referenced in example code, defined
nowhere. -/
def placeholderSyms : List (List Char) :=
  ["function_under_test".data, "calculate_function".data, "ServiceClass".data,
   "DomainEntity".data, "async_function_under_test".data, "DomainError".data,
   "EntityPublishedEvent".data, "expected_default_value".data]

/-- Split the statement list into the top-level class sections: each section
is the class-header statement paired with the statements of its body, the
indented statements up to the next top-level statement. -/
def sectionsGo : Option (List Char × List (Nat × List Char)) → List (Nat × List Char) → List (List Char × List (Nat × List Char))
  | none, [] => []
  | some hacc, [] => [(hacc.1, hacc.2.reverse)]
  | cur, (i, t) :: rest =>
    if i == 0 then
      let nxt := if startsWithChars kwClass t then some (t, ([] : List (Nat × List Char))) else none
      match cur with
      | none => sectionsGo nxt rest
      | some hacc => (hacc.1, hacc.2.reverse) :: sectionsGo nxt rest
    else
      match cur with
      | none => sectionsGo none rest
      | some hacc => sectionsGo (some (hacc.1, (i, t) :: hacc.2)) rest

/-- The top-level class sections of the template document. -/
def sections : List (List Char × List (Nat × List Char)) := sectionsGo none stmts

/-- The class name of a class-header statement. -/
def className (t : List Char) : List Char := ((identsOf t).drop 1).headD []

/-- The name defined by a `def` or `async def` statement, else empty. -/
def defNameOf (t : List Char) : List Char :=
  if startsWithChars kwDef t then (takeIdentGo [] (t.drop 4)).1
  else if startsWithChars kwAsyncDef t then (takeIdentGo [] (t.drop 10)).1
  else []


/-- C2: `get_template` takes no input, returns the full static example text
verbatim (equal to the rendered stored document), never fails (it is a total
function into `String × TemplateState`, not an error monad), and has no side
effects (the state it returns is the state it was given). -/
theorem c2_get_template_verbatim_total_pure :
    get_template initState = (templateText, initState) ∧
    ∀ s : TemplateState, get_template s = (render s.doc, s) := by
  exact ⟨rfl, fun s => rfl⟩

/-- C4: retrieving the template twice in succession (the second call running
in the state left by the first) yields identical content, and retrieval is
deterministic: the result is a function of the state alone. -/
theorem c4_retrieval_idempotent :
    (∀ s : TemplateState, (get_template ((get_template s).2)).1 = (get_template s).1) ∧
    (∀ s t : TemplateState, s = t → (get_template s).1 = (get_template t).1) := by
  exact ⟨fun s => rfl, fun s t h => by rw [h]⟩

/-- C8: no operation mutates the template document: after `get_template`
(the only operation of the system) the stored document equals the stored
document before the call, and the whole state is unchanged — the document is
never mutated, versioned or destroyed. -/
theorem c8_no_mutation :
    ∀ s : TemplateState, ((get_template s).2).doc = s.doc ∧ (get_template s).2 = s := by
  exact fun s => ⟨rfl, rfl⟩

/-- C7: the template document is approximately 190 lines of static example
text: its exact physical line count is 193, which lies within 5 lines of
190. -/
theorem c7_line_count_approx_190 :
    templateLines.length = 193 ∧
    190 ≤ templateLines.length + 2 ∧ templateLines.length ≤ 195 := by
  refine ⟨?_, ?_, ?_⟩ <;> decide

/-- C1: the template document contains exactly four named example sections —
the top-level classes TestClassOrFunctionName (basic behavior tests),
TestClassWithDependencies (dependency-mocked tests), TestAsyncOperations
(async operation tests) and TestDomainEntity (domain-entity tests) — and
each of the four sections is present and non-empty: its body holds at least
one statement. -/
theorem c1_four_named_nonempty_sections :
    sections.length = 4 ∧
    sections.map (fun s => className s.1) =
      ["TestClassOrFunctionName".data, "TestClassWithDependencies".data,
       "TestAsyncOperations".data, "TestDomainEntity".data] ∧
    (sections.all fun s => !s.2.isEmpty) = true := by
  refine ⟨?_, ?_, ?_⟩ <;> decide

/-- C3: every placeholder symbol of the spec's list — function_under_test,
calculate_function, ServiceClass, DomainEntity, async_function_under_test,
DomainError, EntityPublishedEvent, expected_default_value — is referenced as
an identifier in the example code of the document (outside strings and
comments) and is not defined or bound anywhere in the document.  The
repository's only source file is this document, so the document-level check
covers the whole repository. -/
theorem c3_placeholders_referenced_never_defined :
    (placeholderSyms.all fun p => referencesIdent p && !definesIdent p) = true := by
  decide

/-- C5: the full text of the template document passes the tokenizer-level
Python syntax smoke test formalized by `pySmokeOk`: every string literal
terminates, comments strip, brackets balance and nest properly including
across physical lines, and the statements respect Python's
indentation-block discipline (every colon-terminated header is followed by
a properly indented suite, every dedent lands on an enclosing level) — even
though the names the code references are unresolved placeholders. -/
theorem c5_template_passes_python_smoke_test :
    pySmokeOk templateLines = true := by
  decide

/-- C6: the template document is an ordered sequence of sections appearing
in exactly this order: the synchronous basic unit tests
(TestClassOrFunctionName) first, then the dependency-mocking tests
(TestClassWithDependencies), then the asynchronous tests
(TestAsyncOperations), then the domain-entity tests (TestDomainEntity). -/
theorem c6_sections_in_declared_order :
    sections.map (fun s => s.1) =
      ["class TestClassOrFunctionName:".data, "class TestClassWithDependencies:".data,
       "class TestAsyncOperations:".data, "class TestDomainEntity:".data] := by
  decide

/-- C9: the document's only import of a project symbol is its third line,
`from module_name import ClassOrFunctionName`, binding ClassOrFunctionName
at the top of the file; the only import statements at all are the three at
the top (pytest, unittest.mock and that one); the identifier
ClassOrFunctionName is never referenced in code again — the only statement
whose identifier tokens include it is the import itself (its other textual
occurrence sits inside a docstring) — and every one of the four example
sections references at least one of the undefined placeholder names
instead. -/
theorem c9_import_bound_name_never_used :
    templateLines.get? 2 = some "from module_name import ClassOrFunctionName" ∧
    (stmts.filter fun p =>
        startsWithChars kwImport p.2 || startsWithChars kwFrom p.2).map (fun p => p.2) =
      ["import pytest".data,
       "from unittest.mock import Mock, patch, MagicMock".data,
       "from module_name import ClassOrFunctionName".data] ∧
    (stmts.filter fun p =>
        (identsOf p.2).any (· == "ClassOrFunctionName".data)).map (fun p => p.2) =
      ["from module_name import ClassOrFunctionName".data] ∧
    (sections.all fun s =>
        s.2.any fun p => (identsOf p.2).any fun id => placeholderSyms.any (· == id)) = true := by
  refine ⟨?_, ?_, ?_, ?_⟩ <;> decide

/-- C10: every top-level class of the template document has a name
beginning with Test, and every such class contains at least one method
whose name begins with test underscore, so each section is discoverable
under the pytest naming convention. -/
theorem c10_pytest_naming_convention :
    (sections.all fun s =>
        startsWithChars ("Test".data) (className s.1) &&
        s.2.any fun p => startsWithChars ("test_".data) (defNameOf p.2)) = true := by
  decide


end TddTemplate
